import Mathlib

/-!
Verification of the Presidio PII sanitization microservice core
(`app/services/presidio_service.py`, `app/main.py`, `app/routes/*`).

Text is modelled as `List Char`; the Recognition Engine (the external
`presidio_analyzer.AnalyzerEngine`) is a parameter returning either a list
of raw detections or an error (a raised exception).  Machine floats
(confidence scores) are modelled over `Rat`.
-/

namespace Presidio

/-- A raw detection from the Recognition Engine
(`presidio_analyzer.RecognizerResult`): entity type, offsets, score. -/
structure RecognizerResult where
  entity_type : String
  start : Int
  «end» : Int
  score : Rat
deriving DecidableEq, Repr

/-- A normalized entity record, as built by the dict-construction loops in
`PresidioService.analyze` and `PresidioService.sanitize`:
`{type, text, start, end, score}`. -/
structure EntityRecord where
  type : String
  text : List Char
  start : Int
  «end» : Int
  score : Rat
deriving DecidableEq, Repr

/-- Result dict of `PresidioService.sanitize`. -/
structure SanitizeResult where
  original_text : List Char
  sanitized_text : List Char
  entities_found : List EntityRecord
deriving DecidableEq, Repr

/-- Normalization of one index of a Python slice `t[s:e]`: negative indices
count from the end, and both bounds are clamped into `[0, len]`. -/
def pyIndex (len : Nat) (i : Int) : Nat :=
  if i < 0 then ((len : Int) + i).toNat else min i.toNat len

/-- Python string slicing `t[s:e]` (total: out-of-range and reversed bounds
never raise, they just clamp, possibly to the empty string). -/
def pySlice (t : List Char) (s e : Int) : List Char :=
  (t.take (pyIndex t.length e)).drop (pyIndex t.length s)

/-- Python `round(score, 2)` modelled over `Rat`: round to a multiple of
1/100 (exact tie behaviour of binary floats is irrelevant to every claim). -/
def round2 (q : Rat) : Rat :=
  (((q * 100 + 1/2).floor : Int) : Rat) / 100

/-- The fixed healthcare entity catalog `self.healthcare_entities`. -/
def healthcare_entities : List String :=
  [ "PERSON", "EMAIL_ADDRESS", "PHONE_NUMBER", "DATE_TIME", "LOCATION",
    "US_SSN", "CREDIT_CARD", "IP_ADDRESS", "URL", "US_DRIVER_LICENSE",
    "MEDICAL_LICENSE" ]

/-- `entities if entities else self.healthcare_entities`: a caller-supplied
non-empty list is used unchanged; `None` or `[]` (both falsy) select the
healthcare defaults. -/
def selectEntities (requested : Option (List String)) : List String :=
  match requested with
  | some l => if l.isEmpty then healthcare_entities else l
  | none => healthcare_entities

/-- The body of the dict-construction loop in `PresidioService.analyze`
(lines 73-81): one record per raw detection, in engine order. -/
def analyzeRecord (text : List Char) (r : RecognizerResult) : EntityRecord :=
  { type := r.entity_type
    text := pySlice text r.start r.«end»
    start := r.start
    «end» := r.«end»
    score := round2 r.score }

/-- The Recognition Engine as a black box: given text, language and target
entity types it returns raw detections, or an error when the underlying
call raises. -/
def Engine := List Char → String → List String → Except String (List RecognizerResult)

/-- `PresidioService.analyze`: select target entities, call the engine,
convert each result to a dict; a raised engine error is re-raised. -/
def analyze (engine : Engine) (text : List Char) (language : String)
    (entities : Option (List String)) : Except String (List EntityRecord) :=
  match engine text language (selectEntities entities) with
  | .error e => .error e
  | .ok results => .ok (results.map (analyzeRecord text))

/-- The operator table passed to the anonymizer in `PresidioService.sanitize`
(the `operators={...}` dict), read as the Redaction Policy Table: an explicit
placeholder per listed entity type, `"DEFAULT"` otherwise. -/
def placeholder_for (entity_type : String) : List Char :=
  if entity_type = "PERSON" then "<PERSON>".toList
  else if entity_type = "EMAIL_ADDRESS" then "<EMAIL>".toList
  else if entity_type = "PHONE_NUMBER" then "<PHONE>".toList
  else if entity_type = "DATE_TIME" then "<DATE>".toList
  else if entity_type = "LOCATION" then "<LOCATION>".toList
  else if entity_type = "US_SSN" then "<SSN>".toList
  else if entity_type = "CREDIT_CARD" then "<CREDIT_CARD>".toList
  else if entity_type = "IP_ADDRESS" then "<IP_ADDRESS>".toList
  else if entity_type = "URL" then "<URL>".toList
  else if entity_type = "US_DRIVER_LICENSE" then "<DRIVER_LICENSE>".toList
  else if entity_type = "MEDICAL_LICENSE" then "<MEDICAL_LICENSE>".toList
  else "<REDACTED>".toList

/-- Modelled from the spec: stable insertion of a detection into a list
already sorted by `start` ascending (the Redactor implementation is the
external `presidio_anonymizer.AnonymizerEngine`, not part of `src/`). -/
def insertByStart (e : RecognizerResult) : List RecognizerResult → List RecognizerResult
  | [] => [e]
  | f :: rest => if e.start ≤ f.start then e :: f :: rest else f :: insertByStart e rest

/-- Modelled from the spec: sort detections by `start` ascending (stable). -/
def sortByStart : List RecognizerResult → List RecognizerResult
  | [] => []
  | e :: rest => insertByStart e (sortByStart rest)

/-- Modelled from the spec: the Redactor walk over the sorted detections.
`cursor` is the write cursor; an entity whose `start` is strictly below the
cursor is skipped; otherwise the untouched prefix since the cursor is
copied, the placeholder appended, and the cursor advanced to `end`;
after the last entity the remaining suffix is appended. -/
def redactGo (text : List Char) : Int → List RecognizerResult → List Char
  | cursor, [] => text.drop (pyIndex text.length cursor)
  | cursor, e :: rest =>
    if e.start < cursor then
      redactGo text cursor rest
    else
      pySlice text cursor e.start ++ placeholder_for e.entity_type ++ redactGo text e.«end» rest

/-- Modelled from the spec: the Redactor. The anonymizer call in
`PresidioService.sanitize` is modelled per spec section 4.4: sort by `start`
ascending, skip overlapping entities, substitute policy placeholders. -/
def redact (text : List Char) (entities : List RecognizerResult) : List Char :=
  redactGo text 0 (sortByStart entities)

/-- The body of the dict-construction loop in `PresidioService.sanitize`
(lines 147-156), transcribed separately from its duplicate in `analyze`. -/
def sanitizeRecord (text : List Char) (r : RecognizerResult) : EntityRecord :=
  { type := r.entity_type
    text := pySlice text r.start r.«end»
    start := r.start
    «end» := r.«end»
    score := round2 r.score }

/-- `PresidioService.sanitize`, parameterized by the redactor so that
independence from it (the no-PII fast path) is expressible: select target
entities, analyze, return the fast-path result on zero detections, else
anonymize and build the entity dicts from the raw analyzer results. -/
def sanitizeWith (redactor : List Char → List RecognizerResult → List Char)
    (engine : Engine) (text : List Char) (language : String)
    (entities : Option (List String)) : Except String SanitizeResult :=
  match engine text language (selectEntities entities) with
  | .error e => .error e
  | .ok analyzer_results =>
    if analyzer_results.isEmpty then
      .ok { original_text := text, sanitized_text := text, entities_found := [] }
    else
      .ok { original_text := text
            sanitized_text := redactor text analyzer_results
            entities_found := analyzer_results.map (sanitizeRecord text) }

/-- `PresidioService.sanitize` with the (spec-modelled) anonymizer. -/
def sanitize (engine : Engine) (text : List Char) (language : String)
    (entities : Option (List String)) : Except String SanitizeResult :=
  sanitizeWith redact engine text language entities

/-- Request body for `/analyze` and `/sanitize` (`AnalyzeRequest` /
`SanitizeRequest` share the same fields). -/
structure TextRequest where
  text : List Char
  language : String
  entities : Option (List String)

/-- Response body of `/analyze` (`AnalyzeResponse`). -/
structure AnalyzeResponse where
  text : List Char
  entities : List EntityRecord
deriving DecidableEq, Repr

/-- Response body of `/health` (`HealthResponse`). -/
structure HealthResponse where
  status : String
  version : String
deriving DecidableEq, Repr

/-- The `/analyze` route handler `analyze_text`: call the service, convert
to the response model; any exception becomes `HTTPException(500, str(e))`. -/
def analyze_text (engine : Engine) (body : TextRequest) :
    Except (Nat × String) AnalyzeResponse :=
  match analyze engine body.text body.language body.entities with
  | .error e => .error (500, e)
  | .ok entities_found => .ok { text := body.text, entities := entities_found }

/-- The `/sanitize` route handler `sanitize_text`: call the service; any
exception becomes `HTTPException(500, str(e))`. -/
def sanitize_text (engine : Engine) (body : TextRequest) :
    Except (Nat × String) SanitizeResult :=
  match sanitize engine body.text body.language body.entities with
  | .error e => .error (500, e)
  | .ok result => .ok result

/-- The `/health` route handler `health_check`: a constant response. -/
def health_check : HealthResponse :=
  { status := "healthy", version := "1.0.0" }

/-- Outcome of `auth_middleware` on one request: either an early 401 JSON
response, or the wrapped application result (`call_next`). -/
inductive MiddlewareResult (α : Type) where
  | unauthorized (status : Nat) (detail : String)
  | handled (a : α)
deriving DecidableEq, Repr

/-- `auth_middleware` in `app/main.py`: `/health` bypasses the check; with a
configured (truthy) `settings.api_token`, a falsy (`None` or empty) or
mismatched `X-API-Token` header yields a 401 before `call_next`; an
unconfigured token allows every request through. -/
def auth_middleware {α : Type} (api_token : String) (path : String)
    (header : Option String) (call_next : Unit → α) : MiddlewareResult α :=
  if path = "/health" then .handled (call_next ())
  else if api_token ≠ "" then
    let token := header.getD ""
    if token = "" ∨ token ≠ api_token then
      .unauthorized 401 "Invalid or missing API token"
    else .handled (call_next ())
  else .handled (call_next ())

/-! ## Claims -/

/-- Claim C1, counterexample: on text `"abc"` the Recognition Engine returns
one detection with `start = 5`, `end = 3` (reversed and out of range); the
claim says the Normalizer drops it, but `analyze` emits it unchanged (with
the empty clamped slice) — the result is not the empty list. -/
theorem C1_counterexample :
    analyze (fun _ _ _ => .ok [⟨"PERSON", 5, 3, 1⟩]) "abc".toList "en" none
      = .ok [⟨"PERSON", [], 5, 3, round2 1⟩] ∧
    analyze (fun _ _ _ => .ok [⟨"PERSON", 5, 3, 1⟩]) "abc".toList "en" none
      ≠ .ok [] := by
  refine ⟨rfl, fun h => ?_⟩
  rw [show analyze (fun _ _ _ => .ok [⟨"PERSON", 5, 3, 1⟩]) "abc".toList "en" none
      = .ok [⟨"PERSON", [], 5, 3, round2 1⟩] from rfl] at h
  exact List.cons_ne_nil _ _ (Except.ok.inj h)

/-- Claim C1, amended: the Normalizer performs no offset validation and
drops nothing: for every text and every engine output, `analyze` emits
exactly one record per raw detection, in order — a detection with
inconsistent offsets included, its text being the clamped (possibly empty)
Python slice — and the call never aborts. -/
theorem C1_no_drop (text : List Char) (language : String)
    (entities : Option (List String)) (results : List RecognizerResult) :
    analyze (fun _ _ _ => .ok results) text language entities
      = .ok (results.map (analyzeRecord text)) ∧
    (results.map (analyzeRecord text)).length = results.length :=
  ⟨rfl, results.length_map _⟩

/-- Claim C2: the Redactor processes entities sorted by `start` ascending;
an entity whose `start` is strictly below the write cursor is skipped; on
the 8-character string with entities `[0,5)` and `[3,8)` only the first is
substituted, giving exactly one placeholder followed by the untouched
suffix. -/
theorem C2_redactor_skips_overlaps :
    (∀ text entities, redact text entities = redactGo text 0 (sortByStart entities)) ∧
    (∀ text (cursor : Int) e rest, e.start < cursor →
      redactGo text cursor (e :: rest) = redactGo text cursor rest) ∧
    redact "abcdefgh".toList [⟨"PERSON", 0, 5, 1⟩, ⟨"PERSON", 3, 8, 1⟩]
      = "<PERSON>".toList ++ "fgh".toList := by
  refine ⟨fun _ _ => rfl, fun text cursor e rest h => ?_, by decide⟩
  simp [redactGo, h]

/-- Claim C2, witness: the skip rule applied at a concrete cursor and
entity, and the concrete overlap example. -/
theorem C2_witness :
    redactGo "abcdefgh".toList 5 [⟨"PERSON", 3, 8, 1⟩]
      = redactGo "abcdefgh".toList 5 [] ∧
    redact "abcdefgh".toList [⟨"PERSON", 0, 5, 1⟩, ⟨"PERSON", 3, 8, 1⟩]
      = "<PERSON>".toList ++ "fgh".toList :=
  ⟨C2_redactor_skips_overlaps.2.1 "abcdefgh".toList 5 ⟨"PERSON", 3, 8, 1⟩ [] (by decide),
   C2_redactor_skips_overlaps.2.2⟩

/-- Claim C3, counterexample: on text `"abc"` (length 3) the engine returns
a detection with `end = 5`; `analyze` produces a record with `end = 5`,
violating the claimed invariant `end ≤ len(text)`. -/
theorem C3_counterexample :
    analyze (fun _ _ _ => .ok [⟨"PERSON", 0, 5, 1⟩]) "abc".toList "en" none
      = .ok [⟨"PERSON", "abc".toList, 0, 5, round2 1⟩] ∧
    ¬ ((5 : Int) ≤ ("abc".toList.length : Int)) :=
  ⟨rfl, by decide⟩

/-- Claim C3, amended: every record's text equals the Python slice
`text[start:end]` unconditionally; and provided every engine detection
satisfies `0 ≤ start < end ≤ len(text)` (as the real engine does), every
record produced by `analyze` satisfies the full bounds invariant. -/
theorem C3_normalizer_invariant (text : List Char) (language : String)
    (entities : Option (List String)) (results : List RecognizerResult)
    (recs : List EntityRecord)
    (h : analyze (fun _ _ _ => .ok results) text language entities = .ok recs) :
    (∀ rec ∈ recs, rec.text = pySlice text rec.start rec.«end») ∧
    ((∀ r ∈ results, 0 ≤ r.start ∧ r.start < r.«end» ∧ r.«end» ≤ (text.length : Int)) →
      ∀ rec ∈ recs, 0 ≤ rec.start ∧ rec.start < rec.«end» ∧
        rec.«end» ≤ (text.length : Int)) := by
  have hrecs : recs = results.map (analyzeRecord text) := (Except.ok.inj h).symm
  subst hrecs
  constructor
  · intro rec hrec
    obtain ⟨r, _, hr⟩ := List.mem_map.mp hrec
    rw [← hr]
    rfl
  · intro hwf rec hrec
    obtain ⟨r, hrmem, hr⟩ := List.mem_map.mp hrec
    rw [← hr]
    exact hwf r hrmem

/-- Claim C3, witness: the invariant at a concrete well-formed detection. -/
theorem C3_witness :
    (∀ rec ∈ [(⟨"PERSON", "ab".toList, 0, 2, round2 1⟩ : EntityRecord)],
      rec.text = pySlice "abc".toList rec.start rec.«end») ∧
    (∀ rec ∈ [(⟨"PERSON", "ab".toList, 0, 2, round2 1⟩ : EntityRecord)],
      0 ≤ rec.start ∧ rec.start < rec.«end» ∧
        rec.«end» ≤ ("abc".toList.length : Int)) :=
  ⟨(C3_normalizer_invariant "abc".toList "en" none [⟨"PERSON", 0, 2, 1⟩] _ rfl).1,
   (C3_normalizer_invariant "abc".toList "en" none [⟨"PERSON", 0, 2, 1⟩] _ rfl).2
     (by decide)⟩

/-- Claim C4: whenever the engine returns zero detections on a non-empty
text, `sanitize` takes the fast path: the sanitized text is the input text
itself, the original text is the input, and the entity list is empty — for
every redactor, so the Redactor is never consulted. -/
theorem C4_fast_path (redactor : List Char → List RecognizerResult → List Char)
    (engine : Engine) (text : List Char) (language : String)
    (entities : Option (List String)) (_hne : text ≠ [])
    (h : engine text language (selectEntities entities) = .ok []) :
    sanitizeWith redactor engine text language entities
      = .ok { original_text := text, sanitized_text := text, entities_found := [] } := by
  simp [sanitizeWith, h]

/-- Claim C4, witness: the fast path at a concrete input, with a redactor
that would destroy the text if it were invoked. -/
theorem C4_witness :
    sanitizeWith (fun _ _ => []) (fun _ _ _ => .ok []) "hi".toList "en" none
      = .ok { original_text := "hi".toList, sanitized_text := "hi".toList,
              entities_found := [] } :=
  C4_fast_path (fun _ _ => []) (fun _ _ _ => .ok []) "hi".toList "en" none
    (by decide) rfl

/-- Claim C5: a non-empty requested list is passed to the engine unchanged;
an empty or absent list selects the eleven-type healthcare catalog; and
`analyze` and `sanitize` consult the engine only at the selected list (so
exactly that list is what is passed). -/
theorem C5_entity_selection :
    (∀ l : List String, l ≠ [] → selectEntities (some l) = l) ∧
    selectEntities none = healthcare_entities ∧
    selectEntities (some []) = healthcare_entities ∧
    healthcare_entities
      = [ "PERSON", "EMAIL_ADDRESS", "PHONE_NUMBER", "DATE_TIME", "LOCATION",
          "US_SSN", "CREDIT_CARD", "IP_ADDRESS", "URL", "US_DRIVER_LICENSE",
          "MEDICAL_LICENSE" ] ∧
    (∀ (engine engine2 : Engine) text language requested,
      engine text language (selectEntities requested)
          = engine2 text language (selectEntities requested) →
      analyze engine text language requested
          = analyze engine2 text language requested) ∧
    (∀ redactor (engine engine2 : Engine) text language requested,
      engine text language (selectEntities requested)
          = engine2 text language (selectEntities requested) →
      sanitizeWith redactor engine text language requested
          = sanitizeWith redactor engine2 text language requested) := by
  refine ⟨fun l h => ?_, rfl, rfl, rfl, fun engine engine2 text lang req h => ?_,
    fun redactor engine engine2 text lang req h => ?_⟩
  · simp [selectEntities, h]
  · simp [analyze, h]
  · simp [sanitizeWith, h]

/-- Claim C5, witness: selection at a concrete non-empty list and a
concrete engine pair agreeing on the selected list. -/
theorem C5_witness :
    selectEntities (some ["PERSON"]) = ["PERSON"] ∧
    analyze (fun _ _ types => .ok [⟨types.headD "", 0, 1, 1⟩]) "ab".toList "en"
        (some ["PERSON"])
      = analyze (fun _ _ _ => .ok [⟨"PERSON", 0, 1, 1⟩]) "ab".toList "en"
        (some ["PERSON"]) :=
  ⟨C5_entity_selection.1 ["PERSON"] (by decide),
   C5_entity_selection.2.2.2.2.1 (fun _ _ types => .ok [⟨types.headD "", 0, 1, 1⟩])
     (fun _ _ _ => .ok [⟨"PERSON", 0, 1, 1⟩]) "ab".toList "en" (some ["PERSON"]) rfl⟩

/-- Claim C6: the placeholder lookup is total — each of the eleven listed
types maps to its listed placeholder, every other type to `<REDACTED>` —
and on `"John Doe, email john@example.com"` with PERSON at `[0,8)` and
EMAIL_ADDRESS at `[16,32)` the sanitized text is
`"<PERSON>, email <EMAIL>"`. -/
theorem C6_placeholder_total :
    (∀ p ∈ [ ("PERSON", "<PERSON>"), ("EMAIL_ADDRESS", "<EMAIL>"),
             ("PHONE_NUMBER", "<PHONE>"), ("DATE_TIME", "<DATE>"),
             ("LOCATION", "<LOCATION>"), ("US_SSN", "<SSN>"),
             ("CREDIT_CARD", "<CREDIT_CARD>"), ("IP_ADDRESS", "<IP_ADDRESS>"),
             ("URL", "<URL>"), ("US_DRIVER_LICENSE", "<DRIVER_LICENSE>"),
             ("MEDICAL_LICENSE", "<MEDICAL_LICENSE>") ],
      placeholder_for p.1 = p.2.toList) ∧
    (∀ t, t ∉ healthcare_entities → placeholder_for t = "<REDACTED>".toList) ∧
    Except.map SanitizeResult.sanitized_text
      (sanitize
        (fun _ _ _ => .ok [⟨"PERSON", 0, 8, (85 : Rat)/100⟩,
                           ⟨"EMAIL_ADDRESS", 16, 32, (95 : Rat)/100⟩])
        "John Doe, email john@example.com".toList "en" none)
      = .ok "<PERSON>, email <EMAIL>".toList := by
  refine ⟨by decide, fun t h => ?_, rfl⟩
  simp only [healthcare_entities, List.mem_cons, List.not_mem_nil, or_false,
    not_or] at h
  obtain ⟨h1, h2, h3, h4, h5, h6, h7, h8, h9, h10, h11⟩ := h
  simp [placeholder_for, h1, h2, h3, h4, h5, h6, h7, h8, h9, h10, h11]

/-- Claim C6, witness: the explicit table at PERSON and the default at an
unlisted type. -/
theorem C6_witness :
    placeholder_for "PERSON" = "<PERSON>".toList ∧
    placeholder_for "NRP" = "<REDACTED>".toList :=
  ⟨C6_placeholder_total.1 ("PERSON", "<PERSON>") (by decide),
   C6_placeholder_total.2.1 "NRP" (by decide)⟩

/-- Claim C7: when the engine call fails, both route handlers surface the
failure for that request as an `HTTPException` with status 500 carrying the
error text — the error propagates, no retry happens (the engine value is
consulted once), and the result is an error response, not a crash. -/
theorem C7_engine_error (engine : Engine) (body : TextRequest) (e : String)
    (h : engine body.text body.language (selectEntities body.entities) = .error e) :
    analyze_text engine body = .error (500, e) ∧
    sanitize_text engine body = .error (500, e) := by
  constructor
  · simp [analyze_text, analyze, h]
  · simp [sanitize_text, sanitize, sanitizeWith, h]

/-- Claim C7, witness: a concrete engine failure surfaced as a 500. -/
theorem C7_witness :
    analyze_text (fun _ _ _ => .error "boom") ⟨"hi".toList, "en", none⟩
      = .error (500, "boom") ∧
    sanitize_text (fun _ _ _ => .error "boom") ⟨"hi".toList, "en", none⟩
      = .error (500, "boom") :=
  C7_engine_error (fun _ _ _ => .error "boom") ⟨"hi".toList, "en", none⟩ "boom" rfl

/-- Claim C8: with a configured (non-empty) secret, a missing or mismatched
`X-API-Token` header on any path other than `/health` is rejected with a
401 before the wrapped application runs — the outcome is the same for every
`call_next` — while an unconfigured secret lets every request through. -/
theorem C8_auth (α : Type) (secret path : String) (header : Option String)
    (call_next : Unit → α) (hpath : path ≠ "/health") :
    (secret ≠ "" → (header = none ∨ header.getD "" ≠ secret) →
      auth_middleware secret path header call_next
        = .unauthorized 401 "Invalid or missing API token") ∧
    (secret = "" →
      auth_middleware secret path header call_next = .handled (call_next ())) := by
  constructor
  · intro hsec hbad
    have htok : header.getD "" = "" ∨ header.getD "" ≠ secret := by
      rcases hbad with h | h
      · exact .inl (by simp [h])
      · exact .inr h
    simp [auth_middleware, hpath, hsec, htok]
  · intro hsec
    simp [auth_middleware, hpath, hsec]

/-- Claim C8, witness: a mismatched header on `/analyze` with a configured
secret is rejected; the same request with no secret configured passes. -/
theorem C8_witness :
    auth_middleware "s3cret" "/analyze" (some "wrong") (fun _ => (0 : Nat))
      = .unauthorized 401 "Invalid or missing API token" ∧
    auth_middleware "" "/analyze" (some "wrong") (fun _ => (0 : Nat))
      = .handled 0 :=
  ⟨(C8_auth Nat "s3cret" "/analyze" (some "wrong") (fun _ => 0) (by decide)).1
      (by decide) (.inr (by decide)),
   (C8_auth Nat "" "/analyze" (some "wrong") (fun _ => 0) (by decide)).2 rfl⟩

/-- Claim C9: requests to `/health` bypass the authentication middleware
whatever the secret and header are, and the health handler answers the
constant `{status := "healthy", version := "1.0.0"}`. -/
theorem C9_health :
    (∀ (α : Type) (secret : String) (header : Option String) (call_next : Unit → α),
      auth_middleware secret "/health" header call_next = .handled (call_next ())) ∧
    health_check = { status := "healthy", version := "1.0.0" } :=
  ⟨fun _ _ _ _ => rfl, rfl⟩

/-- The two dict-construction loop bodies are one and the same function. -/
theorem sanitizeRecord_eq_analyzeRecord : sanitizeRecord = analyzeRecord := rfl

/-- Claim C10: the two duplicated normalization loops are equivalent: the
per-detection record builders of `analyze` and `sanitize` agree, and for
every redactor and engine the `entities_found` component of `sanitize`
equals the list returned by `analyze` on the same request (the fast path
included). -/
theorem C10_normalization_equiv :
    (∀ text r, analyzeRecord text r = sanitizeRecord text r) ∧
    (∀ redactor (engine : Engine) text language entities,
      Except.map SanitizeResult.entities_found
          (sanitizeWith redactor engine text language entities)
        = analyze engine text language entities) := by
  refine ⟨fun _ _ => rfl, fun redactor engine text lang ents => ?_⟩
  rcases h : engine text lang (selectEntities ents) with e | results
  · simp [sanitizeWith, analyze, h, Except.map]
  · rcases results with _ | ⟨r, rs⟩ <;>
      simp [sanitizeWith, analyze, h, Except.map, sanitizeRecord_eq_analyzeRecord]

end Presidio
